import Mathlib

/-!
Verification development for the `mapachekurt/linear-agent` repository.

The repository is a TypeScript MCP server exposing Linear issue-management
tools.  This file shallowly embeds the parts of the code relevant to the
specification claims: the validator (`src/utils/validator.ts`), the error
handler (`src/utils/error-handler.ts`), the twelve tool handlers
(`src/tools/*.ts`), the `LinearClient` wrapper call surface
(`src/linear-client.ts`), the entry point (`src/index.ts`), and the
priority label map (`src/utils/logger.ts` companion config).  The backlog
shaping engine (classifier, prioritizer, router, lifecycle machine, audit
recorder) described by the specification is not implemented under the
repository source; where a claim depends on it, the relevant operation is
modelled from the specification text and marked as such in its doc comment.
-/

/-! ## JavaScript value model

Tool handler arguments arrive as `Record<string, any>`.  The handlers only
ever distinguish `undefined`, `null`, strings and numbers, so a small a
value type suffices for a faithful embedding. -/

/-- A JavaScript value as observed by the tool handlers: `undefined`,
`null`, a string, or a number (the handlers do no arithmetic, so integers
suffice for the values the claims touch). -/
inductive JVal where
  | undefined
  | null
  | str (s : String)
  | num (n : Int)
deriving DecidableEq, Repr

/-- JavaScript truthiness for the values of `JVal`: `undefined`, `null`,
the empty string and `0` are falsy, everything else is truthy.  Used by
`assign-issue.ts` (`const message = assigneeId ? ... : ...`). -/
def jsTruthy : JVal → Bool
  | .undefined => false
  | .null => false
  | .str s => s ≠ ""
  | .num n => n ≠ 0

/-! ## MCP response model (`src/types/mcp.ts`) -/

/-- A validation error, from `src/types/agent.ts` (`ValidationError`). -/
structure ValidationError where
  field : String
  message : String
deriving DecidableEq, Repr

/-- One element of `MCPResponse.content` (`{ type: 'text', text }`). -/
structure ContentItem where
  type : String
  text : String
deriving DecidableEq, Repr

/-- `MCPResponse` from `src/types/mcp.ts`: a content list and an optional
`isError` flag (absent is modelled as `false`). -/
structure MCPResponse where
  content : List ContentItem
  isError : Bool := false
deriving DecidableEq, Repr

/-! ## Validator (`src/utils/validator.ts`) -/

/-- `Validator.validateRequired`: an error when the value is `undefined`,
`null` or the empty string. -/
def validateRequired (value : JVal) (fieldName : String) : Option ValidationError :=
  if value = .undefined ∨ value = .null ∨ value = .str "" then
    some { field := fieldName, message := fieldName ++ " is required" }
  else
    none

/-- `Validator.validateString`: an error when the value is not a string,
shorter than `minLength` or longer than `maxLength`.  The source guards the
bounds with JavaScript truthiness (`if (minLength && ...)`), so a bound of
`0` is ignored; `Option Nat` with an explicit zero test mirrors that.
JavaScript `value.length` counts UTF-16 code units; the embedding uses
character count, which agrees on the inputs the claims need. -/
def validateString (value : JVal) (fieldName : String)
    (minLength maxLength : Option Nat) : Option ValidationError :=
  match value with
  | .str s =>
    if (match minLength with
        | some m => m != 0 && decide (s.length < m)
        | none => false) then
      some { field := fieldName
             message := fieldName ++ " must be at least "
               ++ toString (minLength.getD 0) ++ " characters" }
    else if (match maxLength with
        | some m => m != 0 && decide (s.length > m)
        | none => false) then
      some { field := fieldName
             message := fieldName ++ " must be at most "
               ++ toString (maxLength.getD 0) ++ " characters" }
    else
      none
  | _ => some { field := fieldName, message := fieldName ++ " must be a string" }

/-- `Validator.collectErrors`: keep the non-null results. -/
def collectErrors (validations : List (Option ValidationError)) : List ValidationError :=
  validations.filterMap id

/-! ## Error handler (`src/utils/error-handler.ts`)

The source extracts a message string from the thrown value; the embedding
models a thrown error by its extracted message. -/

/-- `ErrorHandler.handle`: log and wrap the error message in an
error-flagged response (`context` is only logged). -/
def ErrorHandler.handle (errorMessage : String) (_context : String) : MCPResponse :=
  { content := [{ type := "text", text := "Error: " ++ errorMessage }], isError := true }

/-- `ErrorHandler.handleValidationErrors`: an error-flagged response that
lists every offending field. -/
def ErrorHandler.handleValidationErrors (errors : List ValidationError) : MCPResponse :=
  let errorMessages := String.intercalate "\n"
    (errors.map (fun e => "- " ++ e.field ++ ": " ++ e.message))
  { content := [{ type := "text", text := "Validation errors:\n" ++ errorMessages }]
    isError := true }

/-- `ErrorHandler.success` (the handlers always call it without the `data`
argument): a plain text response. -/
def ErrorHandler.success (message : String) : MCPResponse :=
  { content := [{ type := "text", text := message }] }

/-! ## Formatted Linear entities (`src/types/linear.ts`, `formatIssue`,
`formatProject` in `src/linear-client.ts`)

These are the result values a successful client call hands back to a
handler.  Date fields are carried as their ISO strings; the JavaScript
`toLocaleDateString` rendering is abstracted as the identity on that
string, which no claim depends on. -/

/-- `LinearIssue.state`. -/
structure IssueState where
  id : String
  name : String
  type : String
deriving DecidableEq, Repr

/-- `LinearIssue.assignee`. -/
structure IssueAssignee where
  id : String
  name : String
  email : String
deriving DecidableEq, Repr

/-- `LinearIssue.creator`. -/
structure IssueCreator where
  id : String
  name : String
deriving DecidableEq, Repr

/-- `LinearIssue.project`. -/
structure IssueProjectRef where
  id : String
  name : String
deriving DecidableEq, Repr

/-- `LinearIssue.team`. -/
structure IssueTeamRef where
  id : String
  name : String
  key : String
deriving DecidableEq, Repr

/-- One element of `LinearIssue.labels`. -/
structure IssueLabel where
  id : String
  name : String
  color : String
deriving DecidableEq, Repr

/-- `LinearIssue` from `src/types/linear.ts`. -/
structure LinearIssue where
  id : String
  identifier : String
  title : String
  description : Option String
  priority : Int
  priorityLabel : String
  state : IssueState
  assignee : Option IssueAssignee
  creator : IssueCreator
  project : Option IssueProjectRef
  team : IssueTeamRef
  labels : List IssueLabel
  createdAt : String
  updatedAt : String
  url : String
deriving DecidableEq, Repr

/-- `LinearProject.team`. -/
structure ProjectTeamRef where
  id : String
  name : String
deriving DecidableEq, Repr

/-- `LinearProject.lead`. -/
structure ProjectLead where
  id : String
  name : String
deriving DecidableEq, Repr

/-- `LinearProject` from `src/types/linear.ts`.  `progress` is a
JavaScript number rendered through `Math.round`; it is modelled as an
integer, on which rounding is the identity. -/
structure LinearProject where
  id : String
  name : String
  description : Option String
  state : String
  progress : Int
  startDate : Option String
  targetDate : Option String
  team : ProjectTeamRef
  lead : Option ProjectLead
  url : String
deriving DecidableEq, Repr

/-- `LinearTeam` from `src/types/linear.ts`. -/
structure LinearTeam where
  id : String
  name : String
  key : String
  description : Option String
deriving DecidableEq, Repr

/-- The `{ id, body }` value returned by `LinearClient.addComment`. -/
structure CommentResult where
  id : String
  body : String
deriving DecidableEq, Repr

/-! ## Client call surface (`src/linear-client.ts`)

`ClientCall` lists exactly the public methods of the `LinearClient`
wrapper.  The class has no delete method of any kind, so the type has no
delete constructor.  Payload fields hold the raw values the handlers pass
(`JVal`), mirroring the untyped `args` forwarding in the source. -/

/-- The `IssueCreateInput` payload assembled by `create-issue.ts` (the
handler never sets `labelIds` or `stateId`, so they default to
`undefined`). -/
structure IssueCreateInput where
  title : JVal := .undefined
  description : JVal := .undefined
  priority : JVal := .undefined
  assigneeId : JVal := .undefined
  projectId : JVal := .undefined
  labelIds : JVal := .undefined
  stateId : JVal := .undefined
deriving DecidableEq, Repr

/-- The `IssueUpdateInput` payload assembled by `update-issue.ts`,
`assign-issue.ts` and `update-status.ts`; absent fields are `undefined`. -/
structure IssueUpdateInput where
  title : JVal := .undefined
  description : JVal := .undefined
  priority : JVal := .undefined
  assigneeId : JVal := .undefined
  projectId : JVal := .undefined
  stateId : JVal := .undefined
  labelIds : JVal := .undefined
deriving DecidableEq, Repr

/-- The `IssueFilter` fields forwarded by `list-issues.ts`. -/
structure IssueFilterArgs where
  assigneeId : JVal := .undefined
  priority : JVal := .undefined
  stateType : JVal := .undefined
  projectId : JVal := .undefined
deriving DecidableEq, Repr

/-- One call to a public method of `LinearClient`.  The constructors are
in bijection with the methods of the class in `src/linear-client.ts`;
there is no deletion method. -/
inductive ClientCall where
  | listIssues (filter : IssueFilterArgs) (limit : JVal)
  | getIssue (issueId : JVal)
  | createIssue (input : IssueCreateInput)
  | updateIssue (issueId : JVal) (input : IssueUpdateInput)
  | addComment (issueId : JVal) (body : JVal)
  | searchIssues (query : JVal) (limit : JVal)
  | listProjects (limit : JVal)
  | getProject (projectId : JVal)
  | createProject (name : JVal) (description : JVal)
  | listTeams
deriving DecidableEq, Repr

/-- Outcome of an awaited client call: either the formatted result or a
thrown error, modelled by its extracted message. -/
inductive ClientOutcome (α : Type) where
  | ok (a : α)
  | thrown (msg : String)
deriving DecidableEq, Repr

/-- Rendering of a raw argument value into a template string
(JavaScript template-literal interpolation). -/
def jsDisplay : JVal → String
  | .undefined => "undefined"
  | .null => "null"
  | .str s => s
  | .num n => toString n

/-! ## Tool handlers (`src/tools/*.ts`)

Every handler in the source has the same shape: a `try` block that first
collects validation errors and returns `ErrorHandler.handleValidationErrors`
when any exist, then awaits exactly one client call and returns
`ErrorHandler.success` with a formatted message, with a `catch` that
returns `ErrorHandler.handle`.  `mkHandler` captures that shared shape;
each handler instantiates it with its own validations, context string,
client call and message, exactly as in its source file.  A handler's
result pairs the MCP response with the list of client calls it issued. -/

/-- The shared `try`/validate/call/`catch` shape of every tool handler. -/
def mkHandler {α : Type} (errors : List ValidationError) (context : String)
    (call : ClientCall) (onOk : α → String) (outcome : ClientOutcome α) :
    MCPResponse × List ClientCall :=
  if errors.length > 0 then
    (ErrorHandler.handleValidationErrors errors, [])
  else
    match outcome with
    | .ok a => (ErrorHandler.success (onOk a), [call])
    | .thrown msg => (ErrorHandler.handle msg context, [call])

/-- Arguments read by `list-issues.ts`. -/
structure ListIssuesArgs where
  assigneeId : JVal := .undefined
  priority : JVal := .undefined
  stateType : JVal := .undefined
  projectId : JVal := .undefined
  limit : JVal := .undefined
deriving DecidableEq, Repr

/-- One line of the `list_issues` success message. -/
def listIssuesLine (issue : LinearIssue) : String :=
  let assignee := match issue.assignee with
    | some a => " | Assigned to: " ++ a.name
    | none => ""
  let project := match issue.project with
    | some p => " | Project: " ++ p.name
    | none => ""
  "- " ++ issue.identifier ++ ": " ++ issue.title
    ++ "\n  Status: " ++ issue.state.name ++ " | Priority: " ++ issue.priorityLabel
    ++ assignee ++ project ++ "\n  " ++ issue.url

/-- `createListIssuesHandler` from `list-issues.ts` (no validation). -/
def createListIssuesHandler (args : ListIssuesArgs) :
    ClientOutcome (List LinearIssue) → MCPResponse × List ClientCall :=
  mkHandler [] "list_issues"
    (.listIssues
      { assigneeId := args.assigneeId, priority := args.priority
        stateType := args.stateType, projectId := args.projectId }
      args.limit)
    (fun issues =>
      if issues.length = 0 then
        "No issues found matching the criteria."
      else
        "Found " ++ toString issues.length ++ " issue(s):\n\n"
          ++ String.intercalate "\n\n" (issues.map listIssuesLine))

/-- Arguments read by `get-issue.ts`. -/
structure GetIssueArgs where
  issueId : JVal := .undefined
deriving DecidableEq, Repr

/-- Validations performed by `get-issue.ts`. -/
def getIssueErrors (args : GetIssueArgs) : List ValidationError :=
  collectErrors [validateRequired args.issueId "issueId"]

/-- The markdown detail block built by `get-issue.ts` (template literal,
then `.trim()`; locale date rendering abstracted to the stored string). -/
def getIssueDetails (issue : LinearIssue) : String :=
  ("\n# " ++ issue.identifier ++ ": " ++ issue.title
    ++ "\n\n**Status:** " ++ issue.state.name
    ++ "\n**Priority:** " ++ issue.priorityLabel
    ++ "\n**Created:** " ++ issue.createdAt
    ++ "\n**Updated:** " ++ issue.updatedAt
    ++ "\n**Creator:** " ++ issue.creator.name
    ++ "\n" ++ (match issue.assignee with
      | some a => "**Assignee:** " ++ a.name ++ " (" ++ a.email ++ ")"
      | none => "**Assignee:** Unassigned")
    ++ "\n" ++ (match issue.project with
      | some p => "**Project:** " ++ p.name
      | none => "")
    ++ "\n" ++ (if issue.labels.length > 0 then
        "**Labels:** " ++ String.intercalate ", " (issue.labels.map (fun l => l.name))
      else "")
    ++ "\n\n## Description\n" ++ issue.description.getD "No description provided"
    ++ "\n\n**URL:** " ++ issue.url ++ "\n      ").trim

/-- `createGetIssueHandler` from `get-issue.ts`. -/
def createGetIssueHandler (args : GetIssueArgs) :
    ClientOutcome LinearIssue → MCPResponse × List ClientCall :=
  mkHandler (getIssueErrors args) "get_issue"
    (.getIssue args.issueId)
    getIssueDetails

/-- Arguments read by `create-issue.ts`. -/
structure CreateIssueArgs where
  title : JVal := .undefined
  description : JVal := .undefined
  priority : JVal := .undefined
  assigneeId : JVal := .undefined
  projectId : JVal := .undefined
deriving DecidableEq, Repr

/-- Validations performed by `create-issue.ts`: only the title is checked
(required, string of length 1 to 255); `priority` and the other fields are
forwarded without validation. -/
def createIssueErrors (args : CreateIssueArgs) : List ValidationError :=
  collectErrors [
    validateRequired args.title "title",
    validateString args.title "title" (some 1) (some 255)]

/-- `createCreateIssueHandler` from `create-issue.ts`. -/
def createCreateIssueHandler (args : CreateIssueArgs) :
    ClientOutcome LinearIssue → MCPResponse × List ClientCall :=
  mkHandler (createIssueErrors args) "create_issue"
    (.createIssue
      { title := args.title, description := args.description
        priority := args.priority, assigneeId := args.assigneeId
        projectId := args.projectId })
    (fun issue => "✅ Created issue " ++ issue.identifier ++ ": " ++ issue.title
      ++ "\n\nURL: " ++ issue.url)

/-- Arguments read by `update-issue.ts`. -/
structure UpdateIssueArgs where
  issueId : JVal := .undefined
  title : JVal := .undefined
  description : JVal := .undefined
  priority : JVal := .undefined
  stateId : JVal := .undefined
  assigneeId : JVal := .undefined
deriving DecidableEq, Repr

/-- Validations performed by `update-issue.ts`: only `issueId` is
required; every update field, `priority` included, is forwarded without
validation. -/
def updateIssueErrors (args : UpdateIssueArgs) : List ValidationError :=
  collectErrors [validateRequired args.issueId "issueId"]

/-- `createUpdateIssueHandler` from `update-issue.ts`. -/
def createUpdateIssueHandler (args : UpdateIssueArgs) :
    ClientOutcome LinearIssue → MCPResponse × List ClientCall :=
  mkHandler (updateIssueErrors args) "update_issue"
    (.updateIssue args.issueId
      { title := args.title, description := args.description
        priority := args.priority, stateId := args.stateId
        assigneeId := args.assigneeId })
    (fun issue => "✅ Updated issue " ++ issue.identifier ++ ": " ++ issue.title
      ++ "\n\nURL: " ++ issue.url)

/-- Arguments read by `add-comment.ts`. -/
structure AddCommentArgs where
  issueId : JVal := .undefined
  body : JVal := .undefined
deriving DecidableEq, Repr

/-- Validations performed by `add-comment.ts`. -/
def addCommentErrors (args : AddCommentArgs) : List ValidationError :=
  collectErrors [
    validateRequired args.issueId "issueId",
    validateRequired args.body "body",
    validateString args.body "body" (some 1) none]

/-- `createAddCommentHandler` from `add-comment.ts`. -/
def createAddCommentHandler (args : AddCommentArgs) :
    ClientOutcome CommentResult → MCPResponse × List ClientCall :=
  mkHandler (addCommentErrors args) "add_comment"
    (.addComment args.issueId args.body)
    (fun comment => "✅ Added comment to issue " ++ jsDisplay args.issueId
      ++ "\n\nComment ID: " ++ comment.id)

/-- Arguments read by `search-issues.ts`. -/
structure SearchIssuesArgs where
  query : JVal := .undefined
  limit : JVal := .undefined
deriving DecidableEq, Repr

/-- Validations performed by `search-issues.ts`. -/
def searchIssuesErrors (args : SearchIssuesArgs) : List ValidationError :=
  collectErrors [
    validateRequired args.query "query",
    validateString args.query "query" (some 1) none]

/-- One line of the `search_issues` success message. -/
def searchIssuesLine (issue : LinearIssue) : String :=
  "- " ++ issue.identifier ++ ": " ++ issue.title
    ++ "\n  Status: " ++ issue.state.name ++ " | Priority: " ++ issue.priorityLabel
    ++ "\n  " ++ issue.url

/-- `createSearchIssuesHandler` from `search-issues.ts`. -/
def createSearchIssuesHandler (args : SearchIssuesArgs) :
    ClientOutcome (List LinearIssue) → MCPResponse × List ClientCall :=
  mkHandler (searchIssuesErrors args) "search_issues"
    (.searchIssues args.query args.limit)
    (fun issues =>
      if issues.length = 0 then
        "No issues found matching \"" ++ jsDisplay args.query ++ "\""
      else
        "Found " ++ toString issues.length ++ " issue(s) matching \""
          ++ jsDisplay args.query ++ "\":\n\n"
          ++ String.intercalate "\n\n" (issues.map searchIssuesLine))

/-- Arguments read by `assign-issue.ts`. -/
structure AssignIssueArgs where
  issueId : JVal := .undefined
  assigneeId : JVal := .undefined
deriving DecidableEq, Repr

/-- Validations performed by `assign-issue.ts`: only `issueId` (the input
schema declares `assigneeId` as required, but the handler does not check
it). -/
def assignIssueErrors (args : AssignIssueArgs) : List ValidationError :=
  collectErrors [validateRequired args.issueId "issueId"]

/-- The `const assigneeId = args.assigneeId === '' ? null : args.assigneeId`
mapping in `assign-issue.ts`: the empty string means unassign. -/
def mapAssigneeId (v : JVal) : JVal :=
  if v = .str "" then .null else v

/-- `createAssignIssueHandler` from `assign-issue.ts`.  The success message
branches on the truthiness of the mapped assignee id; rendering of
`issue.assignee?.name` follows template interpolation (`undefined` when
the updated issue reports no assignee). -/
def createAssignIssueHandler (args : AssignIssueArgs) :
    ClientOutcome LinearIssue → MCPResponse × List ClientCall :=
  mkHandler (assignIssueErrors args) "assign_issue"
    (.updateIssue args.issueId { assigneeId := mapAssigneeId args.assigneeId })
    (fun issue =>
      (if jsTruthy (mapAssigneeId args.assigneeId) then
        "✅ Assigned issue " ++ issue.identifier ++ " to "
          ++ (match issue.assignee with | some a => a.name | none => "undefined")
      else
        "✅ Unassigned issue " ++ issue.identifier)
      ++ "\n\nURL: " ++ issue.url)

/-- Arguments read by `update-status.ts`. -/
structure UpdateStatusArgs where
  issueId : JVal := .undefined
  stateId : JVal := .undefined
deriving DecidableEq, Repr

/-- Validations performed by `update-status.ts`: both fields must be
present.  No check relates the requested state to the issue's current
state. -/
def updateStatusErrors (args : UpdateStatusArgs) : List ValidationError :=
  collectErrors [
    validateRequired args.issueId "issueId",
    validateRequired args.stateId "stateId"]

/-- `createUpdateStatusHandler` from `update-status.ts`: after presence
validation, the requested `stateId` is forwarded unconditionally. -/
def createUpdateStatusHandler (args : UpdateStatusArgs) :
    ClientOutcome LinearIssue → MCPResponse × List ClientCall :=
  mkHandler (updateStatusErrors args) "update_status"
    (.updateIssue args.issueId { stateId := args.stateId })
    (fun issue => "✅ Updated " ++ issue.identifier ++ " status to: "
      ++ issue.state.name ++ "\n\nURL: " ++ issue.url)

/-- Arguments read by `list-projects.ts`. -/
structure ListProjectsArgs where
  limit : JVal := .undefined
deriving DecidableEq, Repr

/-- One line of the `list_projects` success message. -/
def listProjectsLine (project : LinearProject) : String :=
  let lead := match project.lead with
    | some l => " | Lead: " ++ l.name
    | none => ""
  let dates := match project.targetDate with
    | some d => " | Target: " ++ d
    | none => ""
  "- " ++ project.name ++ " (" ++ project.state ++ ")"
    ++ "\n  Progress: " ++ toString project.progress ++ "%" ++ lead ++ dates
    ++ "\n  " ++ project.url

/-- `createListProjectsHandler` from `list-projects.ts` (no validation). -/
def createListProjectsHandler (args : ListProjectsArgs) :
    ClientOutcome (List LinearProject) → MCPResponse × List ClientCall :=
  mkHandler [] "list_projects"
    (.listProjects args.limit)
    (fun projects =>
      if projects.length = 0 then
        "No projects found."
      else
        "Found " ++ toString projects.length ++ " project(s):\n\n"
          ++ String.intercalate "\n\n" (projects.map listProjectsLine))

/-- Arguments read by `get-project.ts`. -/
structure GetProjectArgs where
  projectId : JVal := .undefined
deriving DecidableEq, Repr

/-- Validations performed by `get-project.ts`. -/
def getProjectErrors (args : GetProjectArgs) : List ValidationError :=
  collectErrors [validateRequired args.projectId "projectId"]

/-- The markdown detail block built by `get-project.ts`. -/
def getProjectDetails (project : LinearProject) : String :=
  ("\n# " ++ project.name
    ++ "\n\n**State:** " ++ project.state
    ++ "\n**Progress:** " ++ toString project.progress ++ "%"
    ++ "\n**Team:** " ++ project.team.name
    ++ "\n" ++ (match project.lead with
      | some l => "**Lead:** " ++ l.name
      | none => "")
    ++ "\n" ++ (match project.startDate with
      | some d => "**Start Date:** " ++ d
      | none => "")
    ++ "\n" ++ (match project.targetDate with
      | some d => "**Target Date:** " ++ d
      | none => "")
    ++ "\n\n## Description\n" ++ project.description.getD "No description provided"
    ++ "\n\n**URL:** " ++ project.url ++ "\n      ").trim

/-- `createGetProjectHandler` from `get-project.ts`. -/
def createGetProjectHandler (args : GetProjectArgs) :
    ClientOutcome LinearProject → MCPResponse × List ClientCall :=
  mkHandler (getProjectErrors args) "get_project"
    (.getProject args.projectId)
    getProjectDetails

/-- Arguments read by `create-project.ts`. -/
structure CreateProjectArgs where
  name : JVal := .undefined
  description : JVal := .undefined
deriving DecidableEq, Repr

/-- Validations performed by `create-project.ts`. -/
def createProjectErrors (args : CreateProjectArgs) : List ValidationError :=
  collectErrors [
    validateRequired args.name "name",
    validateString args.name "name" (some 1) (some 255)]

/-- `createCreateProjectHandler` from `create-project.ts`. -/
def createCreateProjectHandler (args : CreateProjectArgs) :
    ClientOutcome LinearProject → MCPResponse × List ClientCall :=
  mkHandler (createProjectErrors args) "create_project"
    (.createProject args.name args.description)
    (fun project => "✅ Created project: " ++ project.name
      ++ "\n\nURL: " ++ project.url)

/-- One line of the `list_teams` success message. -/
def listTeamsLine (team : LinearTeam) : String :=
  let desc := match team.description with
    | some d => "\n  " ++ d
    | none => ""
  "- " ++ team.name ++ " (" ++ team.key ++ ")\n  ID: " ++ team.id ++ desc

/-- `createListTeamsHandler` from `list-teams.ts` (no arguments read, no
validation). -/
def createListTeamsHandler :
    ClientOutcome (List LinearTeam) → MCPResponse × List ClientCall :=
  mkHandler [] "list_teams"
    .listTeams
    (fun teams =>
      if teams.length = 0 then
        "No teams found."
      else
        "Found " ++ toString teams.length ++ " team(s):\n\n"
          ++ String.intercalate "\n\n" (teams.map listTeamsLine))

/-! ## External tracker state affected by the client calls

The Linear workspace itself lives outside the program; this is the
standard small-step model of the effect each `LinearClient` method has on
it, read off from the Linear mutations the wrapper invokes
(`createIssue`, `updateIssue`, `createComment`, `createProject`; every
other method is a read).  Updates follow GraphQL semantics for the raw
values the handlers forward: an `undefined` field is not part of the
mutation and leaves the stored value unchanged, `null` clears a nullable
field, and a concrete value replaces the stored one. -/

/-- A ticket as stored by the external tracker. -/
structure StoredTicket where
  id : String
  title : String
  description : Option String
  priority : Int
  stateId : String
  assigneeId : Option String
  projectId : Option String
  comments : List String
  createdAt : Nat
deriving DecidableEq, Repr

/-- A project as stored by the external tracker. -/
structure StoredProject where
  id : String
  name : String
  description : Option String
deriving DecidableEq, Repr

/-- The external tracker state: tickets, projects and a source of fresh
identifiers for entities the tracker creates. -/
structure Store where
  tickets : List StoredTicket
  projects : List StoredProject
  fresh : Nat
deriving DecidableEq, Repr

/-- Effect of one raw update field on a required string field:
a string value replaces it, anything else leaves it unchanged. -/
def setStr (cur : String) (v : JVal) : String :=
  match v with
  | .str s => s
  | _ => cur

/-- Effect of one raw update field on a nullable string field:
`null` clears it, a string sets it, `undefined` leaves it unchanged. -/
def setOptStr (cur : Option String) (v : JVal) : Option String :=
  match v with
  | .str s => some s
  | .null => none
  | _ => cur

/-- Effect of the raw `priority` field: a number replaces the stored
priority verbatim (the tracker model applies no clamping, mirroring the
absence of any clamping in the repository), anything else leaves it. -/
def setPriority (cur : Int) (v : JVal) : Int :=
  match v with
  | .num n => n
  | _ => cur

/-- Partial update of a stored ticket by an `IssueUpdateInput` payload.
The identifier and creation timestamp are not part of the input and never
change. -/
def applyIssueUpdate (t : StoredTicket) (input : IssueUpdateInput) : StoredTicket :=
  { t with
    title := setStr t.title input.title
    description := setOptStr t.description input.description
    priority := setPriority t.priority input.priority
    stateId := setStr t.stateId input.stateId
    assigneeId := setOptStr t.assigneeId input.assigneeId
    projectId := setOptStr t.projectId input.projectId }

/-- The ticket the tracker creates for an `IssueCreateInput` payload;
`fresh` seeds the externally generated identifier and timestamp. -/
def createdTicket (fresh : Nat) (input : IssueCreateInput) : StoredTicket :=
  { id := "issue-" ++ toString fresh
    title := setStr "" input.title
    description := setOptStr none input.description
    priority := setPriority 0 input.priority
    stateId := setStr "state-default" input.stateId
    assigneeId := setOptStr none input.assigneeId
    projectId := setOptStr none input.projectId
    comments := []
    createdAt := fresh }

/-- Effect of one client call on the tracker state.  Reads leave the
state unchanged; `createIssue` and `createProject` append; `updateIssue`
partially rewrites the addressed ticket; `addComment` appends a comment.
No call removes a ticket or a project. -/
def applyCall (s : Store) : ClientCall → Store
  | .createIssue input =>
    { s with tickets := s.tickets ++ [createdTicket s.fresh input], fresh := s.fresh + 1 }
  | .updateIssue (.str issueId) input =>
    { s with tickets := (s.tickets.map
        (fun t => if t.id = issueId then applyIssueUpdate t input else t)) }
  | .updateIssue _ _ => s
  | .addComment (.str issueId) (.str body) =>
    { s with tickets := (s.tickets.map
        (fun t => if t.id = issueId then { t with comments := t.comments ++ [body] } else t)) }
  | .addComment _ _ => s
  | .createProject (.str name) description =>
    { s with
      projects := s.projects ++
        [{ id := "project-" ++ toString s.fresh, name := name
           description := setOptStr none description }]
      fresh := s.fresh + 1 }
  | .createProject _ _ => s
  | _ => s

/-- Effect of a sequence of client calls, first call first. -/
def applyCalls (s : Store) (calls : List ClientCall) : Store :=
  calls.foldl applyCall s

/-! ## Entry point (`src/index.ts`) -/

/-- The environment variables the entry point reads. -/
structure Env where
  LINEAR_API_KEY : Option String := none
  LINEAR_TEAM_ID : Option String := none
deriving DecidableEq, Repr

/-- Outcome of running `main`: either the process exits through the
`catch` block (`logger.error` then `process.exit(1)`) before a client is
constructed, or the Linear client is constructed with the two values and
the server starts. -/
inductive MainResult where
  | exited (code : Nat) (loggedError : String)
  | serving (apiKey : String) (teamId : String)
deriving DecidableEq, Repr

/-- JavaScript falsiness of `process.env.X` (a string or `undefined`):
`undefined` and the empty string are falsy. -/
def envFalsy : Option String → Bool
  | none => true
  | some s => s = ""

/-- `main` from `src/index.ts`: validate the two required environment
variables, throwing (caught by the `catch` that exits with code 1) before
the `LinearClient` is constructed or the server starts. -/
def mainRun (env : Env) : MainResult :=
  if envFalsy env.LINEAR_API_KEY then
    .exited 1 "LINEAR_API_KEY environment variable is required"
  else if envFalsy env.LINEAR_TEAM_ID then
    .exited 1 "LINEAR_TEAM_ID environment variable is required"
  else
    .serving (env.LINEAR_API_KEY.getD "") (env.LINEAR_TEAM_ID.getD "")

/-! ## Priority labels (`LINEAR_PRIORITY_MAP` in the agent config next to
`src/utils/logger.ts`) -/

/-- `LINEAR_PRIORITY_MAP`: the record mapping the Linear priority values
0 to 4 to their labels; every other number is absent from the record. -/
def LINEAR_PRIORITY_MAP : Int → Option String := fun n =>
  if n = 0 then some "No priority"
  else if n = 1 then some "Urgent"
  else if n = 2 then some "High"
  else if n = 3 then some "Medium"
  else if n = 4 then some "Low"
  else none

/-! ## Spec-modelled backlog shaping engine

The specification's classifier, prioritizer, router, lifecycle state
machine and self-learning recorder are described in the repository's
design documents but have no implementation under the repository source.
Every definition in this section is therefore modelled from the
specification text; each doc comment records the sentence it follows. -/

/-- Modelled from the spec: ticket provenance, "`source` (exactly one of a
closed enum)" with values `source:user`, `source:opportunity-agent`,
`source:system-migration`. -/
inductive Source where
  | user
  | opportunityAgent
  | systemMigration
deriving DecidableEq, Repr

/-- Modelled from the spec: product surfaces `solutions`, `app`,
`bridge`. -/
inductive Surface where
  | solutions
  | app
  | bridge
deriving DecidableEq, Repr

/-- Modelled from the spec: "`size` (exactly one of a closed, ordered
enum)" with values small, medium, large. -/
inductive Size where
  | small
  | medium
  | large
deriving DecidableEq, Repr

/-- Modelled from the spec: lifecycle states "`candidate, shaped, ready,
parked, discarded`". -/
inductive Status where
  | candidate
  | shaped
  | ready
  | parked
  | discarded
deriving DecidableEq, Repr

/-- Modelled from the spec: execution routes "`agent | chat | manual`". -/
inductive Route where
  | agent
  | chat
  | manual
deriving DecidableEq, Repr

/-- Modelled from the spec: the transitions the engine itself may perform
(§4.5): `candidate → shaped`, `candidate → parked`,
`candidate → discarded`, `shaped → ready`; "no transition leaves
`parked`/`discarded` except the external reset", which is not an engine
transition. -/
def engineTransition : Status → Status → Bool
  | .candidate, .shaped => true
  | .candidate, .parked => true
  | .candidate, .discarded => true
  | .shaped, .ready => true
  | _, _ => false

/-- Modelled from the spec: the engine configuration, "a flat key-value
mapping: label/tag vocabulary strings, confidence thresholds, funnel
boost/demotion deltas, priority score bounds — all externally supplied".
Confidence values are on a 0–100 scale. -/
structure EngineConfig where
  opportunityTag : String
  migrationTag : String
  solutionsSignals : List String
  appSignals : List String
  redesignSignals : List String
  maintenanceSignals : List String
  validatedSignals : List String
  confidenceThreshold : Nat
  matchedConfidence : Nat
  untaggedSourceConfidence : Nat
  basePriority : Int
  bridgeBoost : Int
  opportunityBoost : Int
  maintenanceDemotion : Int
  speculativeDemotion : Int
  minPriority : Int
  maxPriority : Int
deriving DecidableEq, Repr

/-- Modelled from the spec: the ticket content the pipeline reads —
identifier, title, raw description, tag set, linked-repository
references, creation timestamp. -/
structure TicketContent where
  id : String
  title : String
  description : String
  tags : List String
  repoRefs : List String
  createdAt : Nat
deriving DecidableEq, Repr

/-- Keyword tokenisation used by the modelled classifier: the words of the
title and description. -/
def wordsOf (t : TicketContent) : List String :=
  (t.title ++ " " ++ t.description).splitOn " "

/-- Modelled from the spec: `ClassificationResult` — one source, a surface
set, a size, and a confidence per axis; `multiRepo` records the
"cross-cutting/multi-repository" signal the router consumes. -/
structure ClassificationResult where
  source : Source
  surfaces : List Surface
  size : Size
  sourceConfidence : Nat
  surfaceConfidence : Nat
  sizeConfidence : Nat
  multiRepo : Bool
deriving DecidableEq, Repr

/-- Modelled from the spec: `classify(ticket) -> ClassificationResult`
(§4.1).  Source comes from an explicit marker tag, else defaults to
user-authored; a ticket matches bridge when signals for both other
surfaces are present, which takes precedence; size is scored from signal
count with multi-repository/redesign signals forcing large;
malformed/empty content yields size small, empty surfaces and confidence
0; sub-threshold confidence degrades size to the smallest. -/
def classify (cfg : EngineConfig) (t : TicketContent) : ClassificationResult :=
  if t.title = "" ∧ t.description = "" then
    { source := .user, surfaces := [], size := .small
      sourceConfidence := 0, surfaceConfidence := 0, sizeConfidence := 0
      multiRepo := false }
  else
    let source : Source :=
      if t.tags.contains cfg.opportunityTag then .opportunityAgent
      else if t.tags.contains cfg.migrationTag then .systemMigration
      else .user
    let sourceConfidence : Nat :=
      if t.tags.contains cfg.opportunityTag || t.tags.contains cfg.migrationTag then 100
      else cfg.untaggedSourceConfidence
    let ws := wordsOf t
    let sol := cfg.solutionsSignals.filter (fun k => ws.contains k)
    let app := cfg.appSignals.filter (fun k => ws.contains k)
    let surfaces : List Surface :=
      if sol ≠ [] ∧ app ≠ [] then [.bridge, .solutions, .app]
      else if sol ≠ [] then [.solutions]
      else if app ≠ [] then [.app]
      else []
    let surfaceConfidence : Nat := if surfaces = [] then 0 else cfg.matchedConfidence
    let sizeConfidence : Nat := if surfaces = [] then 0 else cfg.matchedConfidence
    let multiRepo := 2 ≤ t.repoRefs.length
    let rawSize : Size :=
      if multiRepo || cfg.redesignSignals.any (fun k => ws.contains k) then .large
      else if sol.length + app.length ≤ 1 then .small
      else .medium
    let size : Size := if sizeConfidence < cfg.confidenceThreshold then .small else rawSize
    { source := source, surfaces := surfaces, size := size
      sourceConfidence := sourceConfidence, surfaceConfidence := surfaceConfidence
      sizeConfidence := sizeConfidence, multiRepo := multiRepo }

/-- Modelled from the spec: `PriorityScore` — "a bounded integer/ordinal
plus a rationale string". -/
structure PriorityScore where
  score : Int
  rationale : String
deriving DecidableEq, Repr

/-- Modelled from the spec: "Final score is clamped to the configured
priority range". -/
def clampScore (cfg : EngineConfig) (x : Int) : Int :=
  max cfg.minPriority (min cfg.maxPriority x)

/-- Modelled from the spec: `prioritize(classification, funnel_rules) ->
PriorityScore` (§4.3), "additive over independent boosts/demotions, each
configured as (condition, delta)", the four rules in the order the spec
lists them; "rationale is the ordered list of applied deltas". -/
def prioritize (cfg : EngineConfig) (c : ClassificationResult) (t : TicketContent) :
    PriorityScore :=
  let ws := wordsOf t
  let candidates : List (Bool × Int × String) := [
    (c.surfaces.contains Surface.bridge, cfg.bridgeBoost, "bridge surface boost"),
    (c.source = Source.opportunityAgent
        && decide (cfg.confidenceThreshold ≤ c.sourceConfidence),
      cfg.opportunityBoost, "opportunity source boost"),
    (c.surfaces = [Surface.solutions]
        && cfg.maintenanceSignals.any (fun k => ws.contains k),
      -cfg.maintenanceDemotion, "solutions maintenance demotion"),
    (!(cfg.validatedSignals.any (fun k => ws.contains k)),
      -cfg.speculativeDemotion, "speculative idea demotion")]
  let applied := candidates.filter (fun d => d.1)
  { score := clampScore cfg (cfg.basePriority + (applied.map (fun d => d.2.1)).sum)
    rationale := String.intercalate "; "
      (applied.map (fun d => d.2.2 ++ " (" ++ toString d.2.1 ++ ")")) }

/-- Modelled from the spec: the route-specific work artifact — "a
machine-readable brief for `agent`, a prompt snippet for `chat`, nothing
executable for `manual`". -/
inductive Artifact where
  | brief (problem : String) (outcome : String) (constraints : String) (repos : String)
  | prompt (text : String)
  | noArtifact
deriving DecidableEq, Repr

/-- Modelled from the spec: `RoutingDecision` — a route, a rationale
string and an artifact. -/
structure RoutingDecision where
  route : Route
  rationale : String
  artifact : Artifact
deriving DecidableEq, Repr

/-- Modelled from the spec: `route(classification, priority) ->
RoutingDecision` (§4.4), the decision table in precedence order:
(1) sub-threshold confidence on size or surface → `manual`;
(2) size large or multi-repository scope → `agent` with a structured
brief; (3) otherwise → `chat` with a prompt snippet. -/
def route (cfg : EngineConfig) (c : ClassificationResult) (_p : PriorityScore)
    (t : TicketContent) : RoutingDecision :=
  if c.sizeConfidence < cfg.confidenceThreshold
      ∨ c.surfaceConfidence < cfg.confidenceThreshold then
    { route := .manual, rationale := "low confidence or ambiguous scope"
      artifact := .noArtifact }
  else if c.size = .large ∨ c.multiRepo then
    { route := .agent, rationale := "large or multi-repository scope"
      artifact := .brief t.title t.description
        (String.intercalate ", " t.tags) (String.intercalate ", " t.repoRefs) }
  else
    { route := .chat, rationale := "small or medium single-repository scope"
      artifact := .prompt ("Problem: " ++ t.title ++ "\nContext: " ++ t.description) }

/-- Modelled from the spec: `AuditEntry` — "record of {timestamp, ticket
id, stage, input snapshot, output snapshot, outcome}". -/
structure AuditEntry where
  timestamp : Nat
  ticketId : String
  stage : String
  input : String
  output : String
  outcome : String
deriving DecidableEq, Repr

/-- Modelled from the spec: the engine's persisted state — the append-only
audit log plus a clock supplying entry timestamps. -/
structure EngineState where
  auditLog : List AuditEntry
  now : Nat
deriving DecidableEq, Repr

/-- Modelled from the spec: one pipeline run `classify` then `prioritize`
then `route` over a ticket, "with the Recorder observing every stage": the
decisions are pure functions of configuration and ticket content, and one
audit entry is appended per stage. -/
def runPipeline (cfg : EngineConfig) (s : EngineState) (t : TicketContent) :
    (ClassificationResult × PriorityScore × RoutingDecision) × EngineState :=
  let c := classify cfg t
  let p := prioritize cfg c t
  let r := route cfg c p t
  ((c, p, r),
   { auditLog := (s.auditLog ++
      [{ timestamp := s.now, ticketId := t.id, stage := "classify"
         input := t.title, output := toString c.surfaces.length, outcome := "ok" },
       { timestamp := s.now, ticketId := t.id, stage := "prioritize"
         input := t.title, output := p.rationale, outcome := "ok" },
       { timestamp := s.now, ticketId := t.id, stage := "route"
         input := t.title, output := r.rationale, outcome := "ok" }])
     now := s.now + 1 })

/-- Modelled from the spec: the operations that touch the recorder —
`record` and `record_failure` append one entry, `analyze` is "a pure
analysis function over an immutable log window" that only proposes, and a
triage run appends its per-stage entries via the pipeline. -/
inductive EngineOp where
  | record (e : AuditEntry)
  | recordFailure (e : AuditEntry)
  | analyze (window : Nat)
  | triage (t : TicketContent)
deriving DecidableEq, Repr

/-- Modelled from the spec: effect of one engine operation on the engine
state.  Every branch only appends to the audit log. -/
def applyOp (cfg : EngineConfig) (s : EngineState) : EngineOp → EngineState
  | .record e => { s with auditLog := s.auditLog ++ [e] }
  | .recordFailure e => { s with auditLog := s.auditLog ++ [{ e with outcome := "failure" }] }
  | .analyze _ => s
  | .triage t => (runPipeline cfg s t).2

/-- Effect of a sequence of engine operations, first operation first. -/
def applyOps (cfg : EngineConfig) (s : EngineState) (ops : List EngineOp) : EngineState :=
  ops.foldl (applyOp cfg) s

/-- Modelled from the spec: a ticket as seen by the `next` operation —
lifecycle status, priority score and creation timestamp. -/
structure ShapedTicket where
  id : String
  status : Status
  score : Int
  createdAt : Nat
deriving DecidableEq, Repr

/-- Modelled from the spec: the ordering of `next` — "PriorityScore
descending, ties broken by earliest creation timestamp". -/
def nextBefore (a b : ShapedTicket) : Prop :=
  b.score < a.score ∨ (a.score = b.score ∧ a.createdAt ≤ b.createdAt)

instance : DecidableRel nextBefore := fun a b =>
  inferInstanceAs
    (Decidable (b.score < a.score ∨ (a.score = b.score ∧ a.createdAt ≤ b.createdAt)))

instance : IsTotal ShapedTicket nextBefore where
  total a b := by
    rcases lt_trichotomy a.score b.score with h | h | h
    · exact Or.inr (Or.inl h)
    · rcases Nat.le_total a.createdAt b.createdAt with h2 | h2
      · exact Or.inl (Or.inr ⟨h, h2⟩)
      · exact Or.inr (Or.inr ⟨h.symm, h2⟩)
    · exact Or.inl (Or.inl h)

instance : IsTrans ShapedTicket nextBefore where
  trans a b c hab hbc := by
    rcases hab with h1 | ⟨e1, t1⟩
    · rcases hbc with h2 | ⟨e2, t2⟩
      · exact Or.inl (h2.trans h1)
      · exact Or.inl (e2 ▸ h1)
    · rcases hbc with h2 | ⟨e2, t2⟩
      · exact Or.inl (e1 ▸ h2)
      · exact Or.inr ⟨e1.trans e2, t1.trans t2⟩

/-- Modelled from the spec: `next(count)` — "returns the top-N `ready`
tickets ordered by PriorityScore descending, ties broken by earliest
creation timestamp". -/
def next (count : Nat) (backlog : List ShapedTicket) : List ShapedTicket :=
  (List.insertionSort nextBefore
    (backlog.filter (fun t => decide (t.status = Status.ready)))).take count

/-! ## Shared concrete values for closed instantiations -/

/-- A concrete formatted issue used as a client result in closed
instantiations. -/
def sampleIssue : LinearIssue :=
  { id := "uuid-1", identifier := "ENG-1", title := "Sample issue"
    description := none, priority := 2, priorityLabel := "High"
    state := { id := "state-shaped", name := "Shaped", type := "unstarted" }
    assignee := none
    creator := { id := "uuid-2", name := "Kurt" }
    project := none
    team := { id := "team-1", name := "Mapache", key := "ENG" }
    labels := [], createdAt := "2026-01-30", updatedAt := "2026-01-30"
    url := "https://linear.app/mapache/issue/ENG-1" }

/-! ## Helper lemmas -/

/-- `applyIssueUpdate` never changes the ticket identifier. -/
theorem applyIssueUpdate_id (t : StoredTicket) (input : IssueUpdateInput) :
    (applyIssueUpdate t input).id = t.id := rfl

/-- `applyIssueUpdate` never changes the creation timestamp. -/
theorem applyIssueUpdate_createdAt (t : StoredTicket) (input : IssueUpdateInput) :
    (applyIssueUpdate t input).createdAt = t.createdAt := rfl

/-- A single client call keeps every existing ticket: there is a ticket
with the same identifier and creation timestamp afterwards. -/
theorem applyCall_keeps_ticket (s : Store) (c : ClientCall) (t : StoredTicket)
    (h : t ∈ s.tickets) :
    ∃ t', t' ∈ (applyCall s c).tickets ∧ t'.id = t.id ∧ t'.createdAt = t.createdAt := by
  cases c with
  | listIssues filter limit => exact ⟨t, h, rfl, rfl⟩
  | getIssue issueId => exact ⟨t, h, rfl, rfl⟩
  | createIssue input =>
    exact ⟨t, by simp [applyCall]; exact Or.inl h, rfl, rfl⟩
  | updateIssue issueId input =>
    cases issueId with
    | str sid =>
      refine ⟨if t.id = sid then applyIssueUpdate t input else t, ?_, ?_, ?_⟩
      · simpa [applyCall] using List.mem_map_of_mem _ h
      · by_cases hid : t.id = sid <;> simp [hid, applyIssueUpdate_id]
      · by_cases hid : t.id = sid <;> simp [hid, applyIssueUpdate_createdAt]
    | undefined => exact ⟨t, h, rfl, rfl⟩
    | null => exact ⟨t, h, rfl, rfl⟩
    | num n => exact ⟨t, h, rfl, rfl⟩
  | addComment issueId body =>
    cases issueId with
    | str sid =>
      cases body with
      | str b =>
        refine ⟨if t.id = sid then { t with comments := t.comments ++ [b] } else t, ?_, ?_, ?_⟩
        · simpa [applyCall] using List.mem_map_of_mem _ h
        · by_cases hid : t.id = sid <;> simp [hid]
        · by_cases hid : t.id = sid <;> simp [hid]
      | undefined => exact ⟨t, h, rfl, rfl⟩
      | null => exact ⟨t, h, rfl, rfl⟩
      | num n => exact ⟨t, h, rfl, rfl⟩
    | undefined => exact ⟨t, h, rfl, rfl⟩
    | null => exact ⟨t, h, rfl, rfl⟩
    | num n => exact ⟨t, h, rfl, rfl⟩
  | searchIssues query limit => exact ⟨t, h, rfl, rfl⟩
  | listProjects limit => exact ⟨t, h, rfl, rfl⟩
  | getProject projectId => exact ⟨t, h, rfl, rfl⟩
  | createProject name description =>
    cases name with
    | str nm => exact ⟨t, by simp [applyCall, h], rfl, rfl⟩
    | undefined => exact ⟨t, h, rfl, rfl⟩
    | null => exact ⟨t, h, rfl, rfl⟩
    | num n => exact ⟨t, h, rfl, rfl⟩
  | listTeams => exact ⟨t, h, rfl, rfl⟩

/-- A sequence of client calls keeps every existing ticket. -/
theorem applyCalls_keeps_ticket (calls : List ClientCall) (s : Store) (t : StoredTicket)
    (h : t ∈ s.tickets) :
    ∃ t', t' ∈ (applyCalls s calls).tickets ∧ t'.id = t.id ∧ t'.createdAt = t.createdAt := by
  induction calls generalizing s t with
  | nil => exact ⟨t, h, rfl, rfl⟩
  | cons c cs ih =>
    obtain ⟨t1, h1, hid1, hca1⟩ := applyCall_keeps_ticket s c t h
    obtain ⟨t2, h2, hid2, hca2⟩ := ih (applyCall s c) t1 h1
    exact ⟨t2, h2, hid2.trans hid1, hca2.trans hca1⟩

/-- `mkHandler` on a failed validation returns the validation-error
response and issues no client call. -/
theorem mkHandler_validation_stops {α : Type} (errors : List ValidationError)
    (context : String) (call : ClientCall) (onOk : α → String)
    (o : ClientOutcome α) (h : errors ≠ []) :
    mkHandler errors context call onOk o
      = (ErrorHandler.handleValidationErrors errors, []) := by
  unfold mkHandler
  rw [if_pos (List.length_pos.mpr h)]

/-- A handler response is structured: a validation-error response backed
by a non-empty error list, a success (non-error) response, or the
caught-and-wrapped client error. -/
def structuredOutcome {α : Type} (errors : List ValidationError) (context : String)
    (o : ClientOutcome α) (resp : MCPResponse) : Prop :=
  (errors ≠ [] ∧ resp = ErrorHandler.handleValidationErrors errors) ∨
  resp.isError = false ∨
  (∃ msg, o = .thrown msg ∧ resp = ErrorHandler.handle msg context)

/-- Every instance of the shared handler shape yields a structured
response. -/
theorem mkHandler_structured {α : Type} (errors : List ValidationError)
    (context : String) (call : ClientCall) (onOk : α → String) (o : ClientOutcome α) :
    structuredOutcome errors context o (mkHandler errors context call onOk o).1 := by
  by_cases he : errors = []
  · have hlen : ¬ errors.length > 0 := by simp [he]
    unfold mkHandler
    rw [if_neg hlen]
    cases o with
    | ok a => exact Or.inr (Or.inl rfl)
    | thrown msg => exact Or.inr (Or.inr ⟨msg, rfl, rfl⟩)
  · have hlen : errors.length > 0 := List.length_pos.mpr he
    unfold mkHandler
    rw [if_pos hlen]
    exact Or.inl ⟨he, rfl⟩

/-! ## Claims -/

/-- C5: no operation of the engine ever deletes a ticket.  The
`ClientCall` type enumerates every public method of the `LinearClient`
wrapper (`src/linear-client.ts` has no delete method, and the tool
exports in `src/tools/index.ts` reach the tracker only through those
methods); the only ticket mutations are the partial update and the added
comment of `applyCall`, and after any sequence of calls every ticket that
existed before still exists, with its identifier and creation timestamp
intact. -/
theorem C5_no_operation_deletes_tickets (calls : List ClientCall) (s : Store)
    (t : StoredTicket) (h : t ∈ s.tickets) :
    ∃ t', t' ∈ (applyCalls s calls).tickets ∧ t'.id = t.id ∧ t'.createdAt = t.createdAt :=
  applyCalls_keeps_ticket calls s t h

/-- A concrete stored ticket for the C5 witness. -/
def c5ticket : StoredTicket :=
  { id := "TICK-1", title := "A", description := none
    priority := 0, stateId := "state-candidate", assigneeId := none
    projectId := none, comments := [], createdAt := 3 }

/-- A concrete store for the C5 witness. -/
def c5store : Store := { tickets := [c5ticket], projects := [], fresh := 4 }

/-- A concrete call sequence for the C5 witness. -/
def c5calls : List ClientCall :=
  [ClientCall.updateIssue (.str "TICK-1") { priority := .num 2 },
   ClientCall.addComment (.str "TICK-1") (.str "done"),
   ClientCall.createIssue { title := .str "B" }]

/-- Witness for C5 at a concrete store and call sequence. -/
theorem C5_no_operation_deletes_tickets_witness :
    ∃ t', t' ∈ (applyCalls c5store c5calls).tickets
      ∧ t'.id = c5ticket.id ∧ t'.createdAt = c5ticket.createdAt :=
  C5_no_operation_deletes_tickets c5calls c5store c5ticket (List.mem_singleton.mpr rfl)

/-- C6: a missing Linear API key or team id environment variable is fatal
at startup: `main` exits with code 1 and an error naming a variable that
is indeed missing, before any client is constructed or request served
(the `serving` result, which carries the constructed client's
credentials, is never reached). -/
theorem C6_missing_config_fatal (env : Env)
    (h : env.LINEAR_API_KEY = none ∨ env.LINEAR_TEAM_ID = none) :
    ∃ msg, mainRun env = .exited 1 msg ∧
      ((msg = "LINEAR_API_KEY environment variable is required"
          ∧ envFalsy env.LINEAR_API_KEY = true) ∨
       (msg = "LINEAR_TEAM_ID environment variable is required"
          ∧ envFalsy env.LINEAR_TEAM_ID = true)) := by
  by_cases hk : envFalsy env.LINEAR_API_KEY = true
  · exact ⟨_, by simp [mainRun, hk], Or.inl ⟨rfl, hk⟩⟩
  · have hknone : env.LINEAR_API_KEY ≠ none := by
      intro e
      rw [e] at hk
      exact hk rfl
    have ht : env.LINEAR_TEAM_ID = none := h.resolve_left hknone
    have htf : envFalsy env.LINEAR_TEAM_ID = true := by rw [ht]; rfl
    exact ⟨_, by simp [mainRun, hk, htf], Or.inr ⟨rfl, htf⟩⟩

/-- Witness for C6 at a concrete environment missing the API key. -/
theorem C6_missing_config_fatal_witness :
    ∃ msg, mainRun { LINEAR_API_KEY := none, LINEAR_TEAM_ID := some "team-1" }
        = .exited 1 msg ∧
      ((msg = "LINEAR_API_KEY environment variable is required"
          ∧ envFalsy (Env.mk none (some "team-1")).LINEAR_API_KEY = true) ∨
       (msg = "LINEAR_TEAM_ID environment variable is required"
          ∧ envFalsy (Env.mk none (some "team-1")).LINEAR_TEAM_ID = true)) :=
  C6_missing_config_fatal { LINEAR_API_KEY := none, LINEAR_TEAM_ID := some "team-1" }
    (Or.inl rfl)

/-- C7: no tool handler propagates a failure to the caller: for every
argument record and every client outcome (including a thrown error),
each of the twelve handlers returns a response that is either the
structured validation-error response backed by its non-empty error list,
a non-error response, or the caught client error wrapped by
`ErrorHandler.handle`; in the embedding every handler is a total
function, so every invocation returns a response value rather than
raising. -/
theorem C7_handlers_never_raise :
    (∀ (args : ListIssuesArgs) (o : ClientOutcome (List LinearIssue)),
      structuredOutcome [] "list_issues" o (createListIssuesHandler args o).1) ∧
    (∀ (args : GetIssueArgs) (o : ClientOutcome LinearIssue),
      structuredOutcome (getIssueErrors args) "get_issue" o
        (createGetIssueHandler args o).1) ∧
    (∀ (args : CreateIssueArgs) (o : ClientOutcome LinearIssue),
      structuredOutcome (createIssueErrors args) "create_issue" o
        (createCreateIssueHandler args o).1) ∧
    (∀ (args : UpdateIssueArgs) (o : ClientOutcome LinearIssue),
      structuredOutcome (updateIssueErrors args) "update_issue" o
        (createUpdateIssueHandler args o).1) ∧
    (∀ (args : AddCommentArgs) (o : ClientOutcome CommentResult),
      structuredOutcome (addCommentErrors args) "add_comment" o
        (createAddCommentHandler args o).1) ∧
    (∀ (args : SearchIssuesArgs) (o : ClientOutcome (List LinearIssue)),
      structuredOutcome (searchIssuesErrors args) "search_issues" o
        (createSearchIssuesHandler args o).1) ∧
    (∀ (args : AssignIssueArgs) (o : ClientOutcome LinearIssue),
      structuredOutcome (assignIssueErrors args) "assign_issue" o
        (createAssignIssueHandler args o).1) ∧
    (∀ (args : UpdateStatusArgs) (o : ClientOutcome LinearIssue),
      structuredOutcome (updateStatusErrors args) "update_status" o
        (createUpdateStatusHandler args o).1) ∧
    (∀ (args : ListProjectsArgs) (o : ClientOutcome (List LinearProject)),
      structuredOutcome [] "list_projects" o (createListProjectsHandler args o).1) ∧
    (∀ (args : GetProjectArgs) (o : ClientOutcome LinearProject),
      structuredOutcome (getProjectErrors args) "get_project" o
        (createGetProjectHandler args o).1) ∧
    (∀ (args : CreateProjectArgs) (o : ClientOutcome LinearProject),
      structuredOutcome (createProjectErrors args) "create_project" o
        (createCreateProjectHandler args o).1) ∧
    (∀ (o : ClientOutcome (List LinearTeam)),
      structuredOutcome [] "list_teams" o (createListTeamsHandler o).1) :=
  ⟨fun _args o => mkHandler_structured _ _ _ _ o,
   fun _args o => mkHandler_structured _ _ _ _ o,
   fun _args o => mkHandler_structured _ _ _ _ o,
   fun _args o => mkHandler_structured _ _ _ _ o,
   fun _args o => mkHandler_structured _ _ _ _ o,
   fun _args o => mkHandler_structured _ _ _ _ o,
   fun _args o => mkHandler_structured _ _ _ _ o,
   fun _args o => mkHandler_structured _ _ _ _ o,
   fun _args o => mkHandler_structured _ _ _ _ o,
   fun _args o => mkHandler_structured _ _ _ _ o,
   fun _args o => mkHandler_structured _ _ _ _ o,
   fun o => mkHandler_structured _ _ _ _ o⟩

/-- C10: validation is atomic with respect to external state: for each
of the nine validating handlers, when its validations fail it returns the
validation-error response and issues no client call at all. -/
theorem C10_validation_blocks_client_calls :
    (∀ (args : CreateIssueArgs) (o : ClientOutcome LinearIssue),
      createIssueErrors args ≠ [] →
        createCreateIssueHandler args o
          = (ErrorHandler.handleValidationErrors (createIssueErrors args), [])) ∧
    (∀ (args : GetIssueArgs) (o : ClientOutcome LinearIssue),
      getIssueErrors args ≠ [] →
        createGetIssueHandler args o
          = (ErrorHandler.handleValidationErrors (getIssueErrors args), [])) ∧
    (∀ (args : UpdateIssueArgs) (o : ClientOutcome LinearIssue),
      updateIssueErrors args ≠ [] →
        createUpdateIssueHandler args o
          = (ErrorHandler.handleValidationErrors (updateIssueErrors args), [])) ∧
    (∀ (args : AddCommentArgs) (o : ClientOutcome CommentResult),
      addCommentErrors args ≠ [] →
        createAddCommentHandler args o
          = (ErrorHandler.handleValidationErrors (addCommentErrors args), [])) ∧
    (∀ (args : SearchIssuesArgs) (o : ClientOutcome (List LinearIssue)),
      searchIssuesErrors args ≠ [] →
        createSearchIssuesHandler args o
          = (ErrorHandler.handleValidationErrors (searchIssuesErrors args), [])) ∧
    (∀ (args : AssignIssueArgs) (o : ClientOutcome LinearIssue),
      assignIssueErrors args ≠ [] →
        createAssignIssueHandler args o
          = (ErrorHandler.handleValidationErrors (assignIssueErrors args), [])) ∧
    (∀ (args : UpdateStatusArgs) (o : ClientOutcome LinearIssue),
      updateStatusErrors args ≠ [] →
        createUpdateStatusHandler args o
          = (ErrorHandler.handleValidationErrors (updateStatusErrors args), [])) ∧
    (∀ (args : GetProjectArgs) (o : ClientOutcome LinearProject),
      getProjectErrors args ≠ [] →
        createGetProjectHandler args o
          = (ErrorHandler.handleValidationErrors (getProjectErrors args), [])) ∧
    (∀ (args : CreateProjectArgs) (o : ClientOutcome LinearProject),
      createProjectErrors args ≠ [] →
        createCreateProjectHandler args o
          = (ErrorHandler.handleValidationErrors (createProjectErrors args), [])) :=
  ⟨fun _args o h => mkHandler_validation_stops _ _ _ _ o h,
   fun _args o h => mkHandler_validation_stops _ _ _ _ o h,
   fun _args o h => mkHandler_validation_stops _ _ _ _ o h,
   fun _args o h => mkHandler_validation_stops _ _ _ _ o h,
   fun _args o h => mkHandler_validation_stops _ _ _ _ o h,
   fun _args o h => mkHandler_validation_stops _ _ _ _ o h,
   fun _args o h => mkHandler_validation_stops _ _ _ _ o h,
   fun _args o h => mkHandler_validation_stops _ _ _ _ o h,
   fun _args o h => mkHandler_validation_stops _ _ _ _ o h⟩

/-- Witness for C10: a `create_issue` invocation with a missing title
fails validation and issues no client call. -/
theorem C10_validation_blocks_client_calls_witness :
    createIssueErrors { title := .undefined } ≠ [] ∧
    createCreateIssueHandler { title := .undefined } (.ok sampleIssue)
      = (ErrorHandler.handleValidationErrors (createIssueErrors { title := .undefined }), []) :=
  ⟨by decide,
   C10_validation_blocks_client_calls.1 { title := .undefined } (.ok sampleIssue) (by decide)⟩

/-- C9: for `assign_issue`, the empty string is a valid `assigneeId`
meaning unassign: the handler maps it to `null` before issuing the update
and reports an unassignment on success, while any non-empty `assigneeId`
string is passed through unchanged and the success message reports an
assignment. -/
theorem C9_assign_issue_empty_string_unassigns
    (issueId : JVal) (hid : validateRequired issueId "issueId" = none)
    (s : String) (hs : s ≠ "") (issue : LinearIssue) (o : ClientOutcome LinearIssue) :
    (createAssignIssueHandler { issueId := issueId, assigneeId := .str "" } o).2
        = [ClientCall.updateIssue issueId { assigneeId := .null }] ∧
    (createAssignIssueHandler { issueId := issueId, assigneeId := .str "" } (.ok issue)).1
        = ErrorHandler.success
            ("✅ Unassigned issue " ++ issue.identifier ++ "\n\nURL: " ++ issue.url) ∧
    (createAssignIssueHandler { issueId := issueId, assigneeId := .str s } o).2
        = [ClientCall.updateIssue issueId { assigneeId := .str s }] ∧
    (createAssignIssueHandler { issueId := issueId, assigneeId := .str s } (.ok issue)).1
        = ErrorHandler.success
            ("✅ Assigned issue " ++ issue.identifier ++ " to "
              ++ (match issue.assignee with | some a => a.name | none => "undefined")
              ++ "\n\nURL: " ++ issue.url) := by
  have herr : ∀ a : JVal, assignIssueErrors { issueId := issueId, assigneeId := a } = [] := by
    intro a
    simp [assignIssueErrors, collectErrors, hid]
  have hmap0 : mapAssigneeId (.str "") = .null := by simp [mapAssigneeId]
  have hmaps : mapAssigneeId (.str s) = .str s := by simp [mapAssigneeId, hs]
  refine ⟨?_, ?_, ?_, ?_⟩
  · cases o <;> simp [createAssignIssueHandler, mkHandler, herr, hmap0]
  · simp [createAssignIssueHandler, mkHandler, herr, hmap0, jsTruthy]
  · cases o <;> simp [createAssignIssueHandler, mkHandler, herr, hmaps]
  · simp [createAssignIssueHandler, mkHandler, herr, hmaps, jsTruthy, hs]

/-- Witness for C9 at concrete inputs. -/
theorem C9_assign_issue_empty_string_unassigns_witness :
    (createAssignIssueHandler { issueId := .str "ENG-1", assigneeId := .str "" }
        (.ok sampleIssue)).2
      = [ClientCall.updateIssue (.str "ENG-1") { assigneeId := .null }] ∧
    (createAssignIssueHandler { issueId := .str "ENG-1", assigneeId := .str "" }
        (.ok sampleIssue)).1
      = ErrorHandler.success
          ("✅ Unassigned issue " ++ sampleIssue.identifier ++ "\n\nURL: " ++ sampleIssue.url) ∧
    (createAssignIssueHandler { issueId := .str "ENG-1", assigneeId := .str "user-7" }
        (.ok sampleIssue)).2
      = [ClientCall.updateIssue (.str "ENG-1") { assigneeId := .str "user-7" }] ∧
    (createAssignIssueHandler { issueId := .str "ENG-1", assigneeId := .str "user-7" }
        (.ok sampleIssue)).1
      = ErrorHandler.success
          ("✅ Assigned issue " ++ sampleIssue.identifier ++ " to "
            ++ (match sampleIssue.assignee with | some a => a.name | none => "undefined")
            ++ "\n\nURL: " ++ sampleIssue.url) :=
  C9_assign_issue_empty_string_unassigns (.str "ENG-1") (by decide) "user-7" (by decide)
    sampleIssue (.ok sampleIssue)

/-- Modelled from the spec: the mapping of the lifecycle statuses onto
Linear workflow states ("Map these to either Linear workflow states or
labels"), for one concrete externally configured workflow. -/
def statusOfStateId (stateId : String) : Option Status :=
  if stateId = "state-candidate" then some .candidate
  else if stateId = "state-shaped" then some .shaped
  else if stateId = "state-ready" then some .ready
  else if stateId = "state-parked" then some .parked
  else if stateId = "state-discarded" then some .discarded
  else none

/-- The lifecycle status of a ticket in a tracker state. -/
def ticketStatus (s : Store) (issueId : String) : Option Status :=
  match s.tickets.find? (fun t => t.id == issueId) with
  | some t => statusOfStateId t.stateId
  | none => none

/-- A ticket whose lifecycle status is `discarded`, for the C1
counterexample. -/
def discardedTicket : StoredTicket :=
  { id := "TICK-1", title := "Old spike", description := none
    priority := 0, stateId := "state-discarded", assigneeId := none
    projectId := none, comments := [], createdAt := 0 }

/-- The tracker state holding `discardedTicket`. -/
def discardedStore : Store := { tickets := [discardedTicket], projects := [], fresh := 1 }

/-- The `update_status` arguments requesting the `shaped` state for the
discarded ticket. -/
def backwardArgs : UpdateStatusArgs :=
  { issueId := .str "TICK-1", stateId := .str "state-shaped" }

/-- C1 counterexample: the claim that no status update performed by the
engine produces a backward transition is false for the code.  The
`update_status` handler (`createUpdateStatusHandler`) validates only the
presence of its two fields and forwards the requested state
unconditionally: on a ticket whose status is `discarded`, requesting the
`shaped` state succeeds and moves the status from `discarded` back to
`shaped`, a transition the spec's state machine does not allow. -/
theorem C1_counterexample_backward_transition :
    ticketStatus discardedStore "TICK-1" = some Status.discarded ∧
    (createUpdateStatusHandler backwardArgs (.ok sampleIssue)).2
      = [ClientCall.updateIssue (.str "TICK-1") { stateId := .str "state-shaped" }] ∧
    ticketStatus
        (applyCalls discardedStore
          (createUpdateStatusHandler backwardArgs (.ok sampleIssue)).2)
        "TICK-1"
      = some Status.shaped ∧
    engineTransition Status.discarded Status.shaped = false ∧
    (createUpdateStatusHandler backwardArgs (.ok sampleIssue)).1.isError = false := by
  refine ⟨rfl, rfl, rfl, rfl, rfl⟩

/-- C1 amended: the `update_status` handler applies whatever state is
requested.  For any present `issueId` and `stateId` it issues exactly one
update call carrying the requested state, and the resulting tracker state
sets the state of every ticket with that identifier to the requested one
regardless of its current status — the handler enforces no lifecycle
restriction, so forward-only monotonicity holds only if callers respect
it; only the spec's (unimplemented) state machine excludes backward
transitions. -/
theorem C1_amended_update_status_forwards_any_state
    (issueId stateId : String) (hid : issueId ≠ "") (hst : stateId ≠ "")
    (o : ClientOutcome LinearIssue) (s : Store) :
    (createUpdateStatusHandler { issueId := .str issueId, stateId := .str stateId } o).2
      = [ClientCall.updateIssue (.str issueId) { stateId := .str stateId }] ∧
    (applyCalls s
        (createUpdateStatusHandler { issueId := .str issueId, stateId := .str stateId } o).2).tickets
      = s.tickets.map (fun t => if t.id = issueId then { t with stateId := stateId } else t) := by
  have h1 : validateRequired (.str issueId) "issueId" = none := by
    simp [validateRequired, hid]
  have h2 : validateRequired (.str stateId) "stateId" = none := by
    simp [validateRequired, hst]
  have herr : updateStatusErrors { issueId := .str issueId, stateId := .str stateId } = [] := by
    simp [updateStatusErrors, collectErrors, h1, h2]
  have hcall :
      (createUpdateStatusHandler { issueId := .str issueId, stateId := .str stateId } o).2
        = [ClientCall.updateIssue (.str issueId) { stateId := .str stateId }] := by
    cases o <;> simp [createUpdateStatusHandler, mkHandler, herr]
  refine ⟨hcall, ?_⟩
  rw [hcall]
  show (applyCall s (ClientCall.updateIssue (.str issueId) { stateId := .str stateId })).tickets
    = s.tickets.map (fun t => if t.id = issueId then { t with stateId := stateId } else t)
  simp only [applyCall]
  refine List.map_congr_left ?_
  intro t _
  by_cases hid2 : t.id = issueId <;>
    simp [hid2, applyIssueUpdate, setStr, setOptStr, setPriority]

/-- Witness for the amended C1 at concrete inputs. -/
theorem C1_amended_update_status_forwards_any_state_witness :
    (createUpdateStatusHandler { issueId := .str "TICK-1", stateId := .str "state-ready" }
        (.ok sampleIssue)).2
      = [ClientCall.updateIssue (.str "TICK-1") { stateId := .str "state-ready" }] ∧
    (applyCalls discardedStore
        (createUpdateStatusHandler { issueId := .str "TICK-1", stateId := .str "state-ready" }
          (.ok sampleIssue)).2).tickets
      = discardedStore.tickets.map
          (fun t => if t.id = "TICK-1" then { t with stateId := "state-ready" } else t) :=
  C1_amended_update_status_forwards_any_state "TICK-1" "state-ready" (by decide) (by decide)
    (.ok sampleIssue) discardedStore

/-- `create_issue` arguments carrying an out-of-range priority, for the
C3 counterexample. -/
def outOfRangeArgs : CreateIssueArgs :=
  { title := .str "Speculative spike", priority := .num 7 }

/-- An empty tracker state. -/
def emptyStore : Store := { tickets := [], projects := [], fresh := 0 }

/-- C3 counterexample: the claim that every priority the engine writes is
clamped to the configured range 0..4 is false for the code.
`createCreateIssueHandler` validates only the title; a `create_issue`
invocation with priority 7 passes validation, forwards 7 verbatim to the
client, and the created ticket carries priority 7, which is outside 0..4
and absent from `LINEAR_PRIORITY_MAP`. -/
theorem C3_counterexample_unclamped_priority :
    createIssueErrors outOfRangeArgs = [] ∧
    (createCreateIssueHandler outOfRangeArgs (.ok sampleIssue)).2
      = [ClientCall.createIssue { title := .str "Speculative spike", priority := .num 7 }] ∧
    ((applyCalls emptyStore
        (createCreateIssueHandler outOfRangeArgs (.ok sampleIssue)).2).tickets.map
      (fun t => t.priority)) = [7] ∧
    LINEAR_PRIORITY_MAP 7 = none ∧
    ¬ ((0:Int) ≤ 7 ∧ (7:Int) ≤ 4) := by
  refine ⟨by decide, rfl, rfl, rfl, by decide⟩

/-- C3 amended: the `create_issue` handler forwards the caller's priority
without clamping or validation: for every title accepted by its validator
and every integer priority `p`, the issued client call and the ticket the
tracker creates for it carry exactly `p`.  The configured range 0..4
exists in the code only as the label table `LINEAR_PRIORITY_MAP`, whose
domain is exactly 0..4; clamping of a computed score belongs to the
spec's prioritizer, which is not implemented in the repository. -/
theorem C3_amended_priority_forwarded_unclamped
    (title : String) (p : Int)
    (hv : createIssueErrors { title := .str title, priority := .num p } = [])
    (o : ClientOutcome LinearIssue) (n : Nat) (q : Int) :
    (createCreateIssueHandler { title := .str title, priority := .num p } o).2
      = [ClientCall.createIssue { title := .str title, priority := .num p }] ∧
    (createdTicket n { title := .str title, priority := .num p }).priority = p ∧
    ((LINEAR_PRIORITY_MAP q).isSome ↔ 0 ≤ q ∧ q ≤ 4) := by
  refine ⟨?_, rfl, ?_⟩
  · cases o <;> simp [createCreateIssueHandler, mkHandler, hv]
  · unfold LINEAR_PRIORITY_MAP
    split_ifs <;> simp_all <;> omega

/-- Witness for the amended C3 at concrete inputs. -/
theorem C3_amended_priority_forwarded_unclamped_witness :
    (createCreateIssueHandler { title := .str "Fix", priority := .num 7 }
        (.ok sampleIssue)).2
      = [ClientCall.createIssue { title := .str "Fix", priority := .num 7 }] ∧
    (createdTicket 0 { title := .str "Fix", priority := .num 7 }).priority = 7 ∧
    ((LINEAR_PRIORITY_MAP 7).isSome ↔ (0:Int) ≤ 7 ∧ (7:Int) ≤ 4) :=
  C3_amended_priority_forwarded_unclamped "Fix" 7 (by decide) (.ok sampleIssue) 0 7

/-- C2: the pipeline is idempotent.  For every configuration, engine
state and ticket, running `classify` then `prioritize` then `route` a
second time on unchanged content yields the same `ClassificationResult`,
a byte-identical `PriorityScore` (score and rationale string) and the
same `RoutingDecision` as the first run: the decisions are pure functions
of configuration and ticket content and do not depend on the engine state
the first run produced. -/
theorem C2_pipeline_idempotent (cfg : EngineConfig) (s : EngineState) (t : TicketContent) :
    (runPipeline cfg ((runPipeline cfg s t).2) t).1.1 = (runPipeline cfg s t).1.1 ∧
    (runPipeline cfg ((runPipeline cfg s t).2) t).1.2.1.score
      = (runPipeline cfg s t).1.2.1.score ∧
    (runPipeline cfg ((runPipeline cfg s t).2) t).1.2.1.rationale
      = (runPipeline cfg s t).1.2.1.rationale ∧
    (runPipeline cfg ((runPipeline cfg s t).2) t).1.2.2 = (runPipeline cfg s t).1.2.2 :=
  ⟨rfl, rfl, rfl, rfl⟩

/-- One engine operation only ever appends to the audit log. -/
theorem applyOp_appends (cfg : EngineConfig) (s : EngineState) (op : EngineOp) :
    ∃ tail, (applyOp cfg s op).auditLog = s.auditLog ++ tail := by
  cases op with
  | record e => exact ⟨[e], rfl⟩
  | recordFailure e => exact ⟨[{ e with outcome := "failure" }], rfl⟩
  | analyze w => exact ⟨[], (List.append_nil _).symm⟩
  | triage t => exact ⟨_, rfl⟩

/-- C8: the audit log is append-only: after any sequence of engine
operations the audit log before the sequence is an initial segment of the
audit log after it — no entry is ever mutated or deleted. -/
theorem C8_audit_log_append_only (cfg : EngineConfig) (ops : List EngineOp)
    (s : EngineState) :
    ∃ tail, (applyOps cfg s ops).auditLog = s.auditLog ++ tail := by
  induction ops generalizing s with
  | nil => exact ⟨[], (List.append_nil _).symm⟩
  | cons op rest ih =>
    obtain ⟨u, hu⟩ := applyOp_appends cfg s op
    obtain ⟨v, hv⟩ := ih (applyOp cfg s op)
    refine ⟨u ++ v, ?_⟩
    calc (applyOps cfg s (op :: rest)).auditLog
        = (applyOps cfg (applyOp cfg s op) rest).auditLog := rfl
      _ = (applyOp cfg s op).auditLog ++ v := hv
      _ = (s.auditLog ++ u) ++ v := by rw [hu]
      _ = s.auditLog ++ (u ++ v) := List.append_assoc _ _ _

/-- A concrete backlog for the C4 witness. -/
def demoBacklog : List ShapedTicket :=
  [{ id := "a", status := .ready, score := 3, createdAt := 5 },
   { id := "b", status := .candidate, score := 9, createdAt := 1 },
   { id := "c", status := .ready, score := 1, createdAt := 2 }]

/-- C4: `next(count)` returns the top-`count` ready tickets: every
returned ticket has status `ready`, the result is sorted by score
descending with ties broken by the earliest creation timestamp, its
length is `count` capped by the number of ready tickets, and together
with some remainder it is a permutation of all ready tickets where every
returned ticket precedes (in the `nextBefore` order) every ready ticket
left out — no ticket in another status appears. -/
theorem C4_next_returns_top_ready (count : Nat) (backlog : List ShapedTicket) :
    (∀ t, t ∈ next count backlog → t.status = Status.ready) ∧
    List.Sorted nextBefore (next count backlog) ∧
    (next count backlog).length
      = min count (backlog.filter (fun t => decide (t.status = Status.ready))).length ∧
    ∃ rest, (next count backlog ++ rest).Perm
        (backlog.filter (fun t => decide (t.status = Status.ready))) ∧
      ∀ a, a ∈ next count backlog → ∀ b, b ∈ rest → nextBefore a b := by
  have hperm := List.perm_insertionSort nextBefore
    (backlog.filter (fun t => decide (t.status = Status.ready)))
  have hsorted := List.sorted_insertionSort nextBefore
    (backlog.filter (fun t => decide (t.status = Status.ready)))
  refine ⟨?_, ?_, ?_, ?_⟩
  · intro t ht
    have h1 : t ∈ List.insertionSort nextBefore
        (backlog.filter (fun t => decide (t.status = Status.ready))) :=
      List.take_subset count _ ht
    have h2 := hperm.mem_iff.mp h1
    exact of_decide_eq_true (List.mem_filter.mp h2).2
  · exact hsorted.sublist (List.take_sublist count _)
  · rw [next, List.length_take, hperm.length_eq]
  · refine ⟨(List.insertionSort nextBefore
        (backlog.filter (fun t => decide (t.status = Status.ready)))).drop count, ?_, ?_⟩
    · rw [next, List.take_append_drop]
      exact hperm
    · have hpw : ((List.insertionSort nextBefore
          (backlog.filter (fun t => decide (t.status = Status.ready)))).take count
            ++ (List.insertionSort nextBefore
          (backlog.filter (fun t => decide (t.status = Status.ready)))).drop count).Pairwise
          nextBefore := by
        rw [List.take_append_drop]
        exact hsorted
      exact (List.pairwise_append.mp hpw).2.2

/-- Witness for C4 at a concrete backlog: the single returned ticket is
`ready`. -/
theorem C4_next_returns_top_ready_witness :
    ({ id := "a", status := .ready, score := 3, createdAt := 5 } : ShapedTicket).status
      = Status.ready ∧
    (next 1 demoBacklog).length
      = min 1 (demoBacklog.filter (fun t => decide (t.status = Status.ready))).length :=
  ⟨(C4_next_returns_top_ready 1 demoBacklog).1
      { id := "a", status := .ready, score := 3, createdAt := 5 } (by decide),
   (C4_next_returns_top_ready 1 demoBacklog).2.2.1⟩
